import Mathlib

/-!
Verification of the element-location / relaxed-locate core of the
`watir_snake` repository.

We give a shallow embedding of the code of
`watir_snake/elements/element.py` (the `Element` orchestrator) and
`watir_snake/locators/row/selector_builder.py` (the row `SelectorBuilder`),
and settle the specification's claims about them.

Collaborators that the embedded code calls (the driver, the `Locator`,
the query scope, the `Wait.wait_until` polling loop) are represented by
outcome oracles: each call site receives the outcome the collaborator
would produce there.  Exceptions are modelled by the `Exc` inductive and
`Except`-valued results; side effects relevant to the claims (wire calls,
locate queries, nested waits, the advisory warning) are recorded in an
event trace.
-/

set_option autoImplicit false

namespace WatirSnake

/-- The exception kinds that flow through the embedded code.
`staleElementReference` is selenium's `StaleElementReferenceException`;
`watirError` is `watir_snake.exception.Error`; `timeoutError` is
`watir_snake.wait.wait.TimeoutError`; `other` stands for any further
driver/backend exception. -/
inductive Exc where
  | staleElementReference
  | unknownObject (msg : String)
  | unknownFrame (msg : String)
  | objectDisabled (msg : String)
  | objectReadOnly (msg : String)
  | timeoutError
  | watirError (msg : String)
  | typeError (msg : String)
  | other (code : Nat)
deriving DecidableEq

instance {ε α : Type} [DecidableEq ε] [DecidableEq α] : DecidableEq (Except ε α) := fun x y =>
  match x, y with
  | Except.ok a, Except.ok b => decidable_of_iff (a = b) (by simp)
  | Except.error e, Except.error f => decidable_of_iff (e = f) (by simp)
  | Except.ok _, Except.error _ => isFalse (by simp)
  | Except.error _, Except.ok _ => isFalse (by simp)

/-- Trace events recorded by the embedded operations. -/
inductive Event where
  | existCheck (n : Nat)
  | methodCall (n : Nat)
  | ensureContext
  | staleProbe
  | locateCall
  | scopeWaitExists
  | scopeWaitPresent
  | waitUntilExists
  | waitUntilEnabled
  | waitUntilNotReadonly
  | warnAdvisory
deriving DecidableEq

def Event.isExistCheck : Event → Bool
  | Event.existCheck _ => true
  | _ => false

def Event.isMethodCall : Event → Bool
  | Event.methodCall _ => true
  | _ => false

/-- Mutable state of an `Element`: the cached native handle (`self.element`,
`None` when unresolved; handles are opaque, modelled as `Nat`) and whether
`self.selector` is the empty mapping (which is falsy in Python). -/
structure ElemState where
  element : Option Nat
  selectorEmpty : Bool
deriving DecidableEq

/-- Process-wide configuration read by the orchestrator:
`watir_snake.relaxed_locate`, `watir_snake.default_timeout`, and the
`repr`/format string of the element (used in exception messages). -/
structure Config where
  relaxed : Bool
  defaultTimeout : Int
  selRepr : String
deriving DecidableEq

/-- Outcomes of the collaborator calls made by `Element`'s methods.
`none` / `Except.ok` means the call returned normally; `some e` /
`Except.error e` means it raised `e`.  `probe` is the wire call
`self.element.enabled` used by `stale`; `locate` is `Locator.locate()`
(`ok none` = no element found); the `scopeWait*` fields are the query
scope's `wait_for_exists` / `wait_for_present`; the `waitUntil*` fields
are the outcomes of the `self.wait_until(...)` polling calls. -/
structure Oracles where
  probe : Nat → Option Exc
  ensureContext : Option Exc
  locate : Except Exc (Option Nat)
  scopeWaitExists : Option Exc
  scopeWaitPresent : Option Exc
  waitUntilExists : Option Exc
  waitUntilEnabled : Option Exc
  waitUntilNotReadonly : Option Exc
  enabledCall : Except Exc Bool
  readonlyAttr : Option Bool

/-- Modelled from the spec: the shared `Timer` of `watir_snake/wait/timer.py`
is not under `src/`.  Per spec §3 it holds a `deadline` (absolute time or
unset) and a lock; the code in `src/` tests the lock with
`Wait.timer.locked is None`, so the lock is modelled as an `Option` that is
`none` exactly when no outer wait holds the timer. -/
structure Timer where
  deadline : Option Int
  locked : Option Unit
deriving DecidableEq

/-- Modelled from the spec: `Timer(timeout=t)` installs a fresh deadline
computed from now + timeout (spec §4.4); it is created without the lock
held (the lock is taken by the wait operation itself). -/
def Timer.fresh (timeout : Int) : Timer :=
  { deadline := some timeout, locked := none }

/-- Modelled from the spec: `Timer.reset()` clears the deadline and leaves
the timer unset/unlocked (spec §3: "created unset ... clears/unlocks it on
exit"). -/
def Timer.reset (_t : Timer) : Timer :=
  { deadline := none, locked := none }

/-- `Element.stale` (element.py lines 412-424): raises
`Error('Can not check staleness of unused element')` when no native handle
was ever resolved; otherwise performs a wire call on the handle and
returns `True` exactly when that call raises
`StaleElementReferenceException` (which is the only exception kind the
`try` catches; anything else propagates). -/
def staleProp (probe : Nat → Option Exc) (s : ElemState) : Except Exc Bool :=
  match s.element with
  | none => Except.error (Exc.watirError "Can not check staleness of unused element")
  | some h =>
    match probe h with
    | none => Except.ok false
    | some Exc.staleElementReference => Except.ok true
    | some e => Except.error e

/-- The first two lines of `Element._element_call` (element.py lines
579-580): a fresh `Timer` with the default timeout is installed only when
the shared timer is not locked (`Wait.timer.locked is None`); an
already-locked timer is kept. -/
def elementCallTimerInstall (defaultTimeout : Int) (t0 : Timer) : Timer :=
  if t0.locked = none then Timer.fresh defaultTimeout else t0

/-- The `except StaleElementReferenceException` handler of
`Element._element_call` (element.py lines 584-586): re-run the
exist-check and the action once more; any exception from this second
attempt — staleness included — propagates. -/
def elementCallRetry {α : Type} (ec : Nat → Option Exc) (m : Nat → Except Exc α)
    (evs0 : List Event) : Except Exc α × List Event :=
  match ec 1 with
  | some e => (Except.error e, evs0 ++ [Event.existCheck 1])
  | none =>
    match m 1 with
    | Except.error e => (Except.error e, evs0 ++ [Event.existCheck 1, Event.methodCall 1])
    | Except.ok a => (Except.ok a, evs0 ++ [Event.existCheck 1, Event.methodCall 1])

/-- The `try` body of `Element._element_call` (element.py lines 581-586):
`exist_check(); return method()`, with `StaleElementReferenceException`
raised by either call sending control to the single retry handler and any
other exception propagating.  `ec n` / `m n` are the outcomes of the
`n`-th invocation of `exist_check` / `method`. -/
def elementCallAttempts {α : Type} (ec : Nat → Option Exc) (m : Nat → Except Exc α) :
    Except Exc α × List Event :=
  match ec 0 with
  | some Exc.staleElementReference => elementCallRetry ec m [Event.existCheck 0]
  | some e => (Except.error e, [Event.existCheck 0])
  | none =>
    match m 0 with
    | Except.error Exc.staleElementReference =>
        elementCallRetry ec m [Event.existCheck 0, Event.methodCall 0]
    | Except.error e => (Except.error e, [Event.existCheck 0, Event.methodCall 0])
    | Except.ok a => (Except.ok a, [Event.existCheck 0, Event.methodCall 0])

/-- `Element._element_call` (element.py lines 577-589).  The `finally`
block resets the timer only when it is not locked.  The exist-check and
the action are supplied as outcome streams and do not themselves move the
timer's lock between entry and exit of the `try` (spec §4.4: waits acquire
and release the shared timer scopedly, with release guaranteed on every
exit path). -/
def elementCall {α : Type} (defaultTimeout : Int) (t0 : Timer)
    (ec : Nat → Option Exc) (m : Nat → Except Exc α) :
    Except Exc α × Timer × List Event :=
  let t1 := elementCallTimerInstall defaultTimeout t0
  let r := elementCallAttempts ec m
  let t2 := if t1.locked = none then t1.reset else t1
  (r.fst, t2, r.snd)

/-- `Element.assert_element_found` (element.py lines 499-501). -/
def assertElementFound (cfg : Config) (s : ElemState) : Except Exc Unit :=
  match s.element with
  | none => Except.error (Exc.unknownObject ("unable to locate element: " ++ cfg.selRepr))
  | some _ => Except.ok ()

/-- The `else` branch of `Element.assert_exists`:
`self.element = self.locate()` followed by `assert_element_found`.
`Element.locate` (element.py lines 503-512) begins with
`self._ensure_context()` and then runs `Locator.locate()`. -/
def locateAndAssert (cfg : Config) (o : Oracles) (s : ElemState) (evs0 : List Event) :
    Except Exc Unit × ElemState × List Event :=
  match o.ensureContext with
  | some e => (Except.error e, s, evs0 ++ [Event.ensureContext])
  | none =>
    match o.locate with
    | Except.error e => (Except.error e, s, evs0 ++ [Event.ensureContext, Event.locateCall])
    | Except.ok r =>
      let s2 : ElemState := { s with element := r }
      (assertElementFound cfg s2, s2, evs0 ++ [Event.ensureContext, Event.locateCall])

/-- `Element.assert_exists` (element.py lines 484-497):
if a handle is cached and the selector was emptied, re-enter the context
and discard the handle when it is stale; else if a handle is cached and
not stale, return; else re-locate.  Finally `assert_element_found`. -/
def assertExists (cfg : Config) (o : Oracles) (s : ElemState) :
    Except Exc Unit × ElemState × List Event :=
  match s.element with
  | some _ =>
    if s.selectorEmpty then
      match o.ensureContext with
      | some e => (Except.error e, s, [Event.ensureContext])
      | none =>
        match staleProp o.probe s with
        | Except.error e => (Except.error e, s, [Event.ensureContext, Event.staleProbe])
        | Except.ok true =>
          let s2 : ElemState := { s with element := none }
          (assertElementFound cfg s2, s2, [Event.ensureContext, Event.staleProbe])
        | Except.ok false =>
          (assertElementFound cfg s, s, [Event.ensureContext, Event.staleProbe])
    else
      match staleProp o.probe s with
      | Except.error e => (Except.error e, s, [Event.staleProbe])
      | Except.ok false => (Except.ok (), s, [Event.staleProbe])
      | Except.ok true => locateAndAssert cfg o s [Event.staleProbe]
  | none => locateAndAssert cfg o s []

/-- `Element.exists` (element.py lines 31-41): `assert_exists` wrapped so
that `UnknownObjectException` / `UnknownFrameException` yield `False`,
success yields `True`, and any other exception propagates. -/
def existsProp (cfg : Config) (o : Oracles) (s : ElemState) :
    Except Exc Bool × ElemState × List Event :=
  match assertExists cfg o s with
  | (Except.ok _, s2, evs) => (Except.ok true, s2, evs)
  | (Except.error (Exc.unknownObject _), s2, evs) => (Except.ok false, s2, evs)
  | (Except.error (Exc.unknownFrame _), s2, evs) => (Except.ok false, s2, evs)
  | (Except.error e, s2, evs) => (Except.error e, s2, evs)

/-- The message of the `UnknownObjectException` raised by
`wait_for_exists` / `wait_for_present` on timeout (element.py lines
442-443 and 457-458). -/
def locateTimeoutMsg (cfg : Config) : String :=
  "timed out after " ++ toString cfg.defaultTimeout ++ " seconds, waiting for "
    ++ cfg.selRepr ++ " to be located"

/-- The shared `except TimeoutError` handler of `wait_for_exists` /
`wait_for_present` (element.py lines 437-443 and 452-458): emit the
advisory warning when `watir_snake.default_timeout != 0`, then raise the
unknown-object failure naming the configured timeout and the selector. -/
def locateTimeoutRaise (cfg : Config) (s : ElemState) (evs : List Event) :
    Except Exc Unit × ElemState × List Event :=
  let evs2 := if cfg.defaultTimeout ≠ 0 then evs ++ [Event.warnAdvisory] else evs
  (Except.error (Exc.unknownObject (locateTimeoutMsg cfg)), s, evs2)

/-- `Element.wait_for_exists` (element.py lines 429-443): with relaxed
locating off, just `assert_exists`; otherwise the `self.exists` fast path,
then `query_scope.wait_for_exists()` followed by
`wait_until(self.exists)`, with `TimeoutError` from either converted by
`locateTimeoutRaise`. -/
def waitForExists (cfg : Config) (o : Oracles) (s : ElemState) :
    Except Exc Unit × ElemState × List Event :=
  if cfg.relaxed = false then assertExists cfg o s
  else
    match existsProp cfg o s with
    | (Except.ok true, s2, evs) => (Except.ok (), s2, evs)
    | (Except.error e, s2, evs) => (Except.error e, s2, evs)
    | (Except.ok false, s2, evs) =>
      match o.scopeWaitExists with
      | some Exc.timeoutError => locateTimeoutRaise cfg s2 (evs ++ [Event.scopeWaitExists])
      | some e => (Except.error e, s2, evs ++ [Event.scopeWaitExists])
      | none =>
        match o.waitUntilExists with
        | none => (Except.ok (), s2, evs ++ [Event.scopeWaitExists, Event.waitUntilExists])
        | some Exc.timeoutError =>
            locateTimeoutRaise cfg s2 (evs ++ [Event.scopeWaitExists, Event.waitUntilExists])
        | some e =>
            (Except.error e, s2, evs ++ [Event.scopeWaitExists, Event.waitUntilExists])

/-- `Element.wait_for_present` (element.py lines 445-458): with relaxed
locating off, `assert_exists`; otherwise `query_scope.wait_for_present()`
followed by `wait_until(self.exists)` (the source polls `exists` here
too), with `TimeoutError` converted by `locateTimeoutRaise`. -/
def waitForPresent (cfg : Config) (o : Oracles) (s : ElemState) :
    Except Exc Unit × ElemState × List Event :=
  if cfg.relaxed = false then assertExists cfg o s
  else
    match o.scopeWaitPresent with
    | some Exc.timeoutError => locateTimeoutRaise cfg s [Event.scopeWaitPresent]
    | some e => (Except.error e, s, [Event.scopeWaitPresent])
    | none =>
      match o.waitUntilExists with
      | none => (Except.ok (), s, [Event.scopeWaitPresent, Event.waitUntilExists])
      | some Exc.timeoutError =>
          locateTimeoutRaise cfg s [Event.scopeWaitPresent, Event.waitUntilExists]
      | some e => (Except.error e, s, [Event.scopeWaitPresent, Event.waitUntilExists])

/-- `Element._assert_enabled` (element.py lines 561-563): raise
`ObjectDisabledException` when the enabled wire call yields a falsy value. -/
def assertEnabled (cfg : Config) (o : Oracles) : Option Exc :=
  match o.enabledCall with
  | Except.error e => some e
  | Except.ok b =>
    if b then none else some (Exc.objectDisabled ("object is disabled " ++ cfg.selRepr))

/-- Message of the `ObjectDisabledException` raised by `wait_for_enabled`
on timeout (element.py lines 468-470). -/
def enabledTimeoutMsg (cfg : Config) : String :=
  "element present, but timed out after " ++ toString cfg.defaultTimeout
    ++ " seconds, waiting for " ++ cfg.selRepr ++ " to be enabled"

/-- `Element.wait_for_enabled` (element.py lines 460-470): with relaxed
locating off, `_assert_enabled`; otherwise `wait_for_present()` first,
then `wait_until(self.enabled)`, with `TimeoutError` converted to
`ObjectDisabledException`. -/
def waitForEnabled (cfg : Config) (o : Oracles) (s : ElemState) :
    Except Exc Unit × ElemState × List Event :=
  if cfg.relaxed = false then
    match assertEnabled cfg o with
    | some e => (Except.error e, s, [])
    | none => (Except.ok (), s, [])
  else
    match waitForPresent cfg o s with
    | (Except.error e, s2, evs) => (Except.error e, s2, evs)
    | (Except.ok _, s2, evs) =>
      match o.waitUntilEnabled with
      | none => (Except.ok (), s2, evs ++ [Event.waitUntilEnabled])
      | some Exc.timeoutError =>
          (Except.error (Exc.objectDisabled (enabledTimeoutMsg cfg)), s2,
            evs ++ [Event.waitUntilEnabled])
      | some e => (Except.error e, s2, evs ++ [Event.waitUntilEnabled])

/-- `Element._assert_writable` (element.py lines 565-569):
`_assert_enabled`, then raise `ObjectReadOnlyException` when the element
has a truthy `readonly` attribute. -/
def assertWritable (cfg : Config) (o : Oracles) : Option Exc :=
  match assertEnabled cfg o with
  | some e => some e
  | none =>
    match o.readonlyAttr with
    | some true => some (Exc.objectReadOnly ("object is read only " ++ cfg.selRepr))
    | _ => none

/-- Message of the `ObjectReadOnlyException` raised by `wait_for_writable`
on timeout (element.py lines 480-482). -/
def readonlyTimeoutMsg (cfg : Config) : String :=
  "element present and enabled, but timed out after " ++ toString cfg.defaultTimeout
    ++ " seconds, waiting for " ++ cfg.selRepr ++ " to not be readonly"

/-- `Element.wait_for_writable` (element.py lines 472-482): with relaxed
locating off, `_assert_writable`; otherwise `wait_for_enabled()` first,
then `wait_until(...not readonly...)`, with `TimeoutError` converted to
`ObjectReadOnlyException`. -/
def waitForWritable (cfg : Config) (o : Oracles) (s : ElemState) :
    Except Exc Unit × ElemState × List Event :=
  if cfg.relaxed = false then
    match assertWritable cfg o with
    | some e => (Except.error e, s, [])
    | none => (Except.ok (), s, [])
  else
    match waitForEnabled cfg o s with
    | (Except.error e, s2, evs) => (Except.error e, s2, evs)
    | (Except.ok _, s2, evs) =>
      match o.waitUntilNotReadonly with
      | none => (Except.ok (), s2, evs ++ [Event.waitUntilNotReadonly])
      | some Exc.timeoutError =>
          (Except.error (Exc.objectReadOnly (readonlyTimeoutMsg cfg)), s2,
            evs ++ [Event.waitUntilNotReadonly])
      | some e => (Except.error e, s2, evs ++ [Event.waitUntilNotReadonly])

/-- Python values that occur in a selector mapping: literal strings,
compiled regular expressions (`re.compile(...)`, identified by their
pattern text), booleans, integers, and `None`. -/
inductive PyVal where
  | str (s : String)
  | regex (pattern : String)
  | bool (b : Bool)
  | int (n : Int)
  | pyNone
deriving DecidableEq

/-- `isinstance(v, re._pattern_type)`. -/
def PyVal.isRegex : PyVal → Bool
  | PyVal.regex _ => true
  | _ => false

def PyVal.isStr : PyVal → Bool
  | PyVal.str _ => true
  | _ => false

def PyVal.isInt : PyVal → Bool
  | PyVal.int _ => true
  | _ => false

/-- Python truthiness of a selector value. -/
def PyVal.truthy : PyVal → Bool
  | PyVal.str s => s ≠ ""
  | PyVal.regex _ => true
  | PyVal.bool b => b
  | PyVal.int n => n ≠ 0
  | PyVal.pyNone => false

/-- A Python `dict` as an ordered association list.  Keys are `PyVal` so
that the source's `isinstance` test on the objects yielded by iterating
the dict (its keys) is represented exactly; well-formed selector mappings
use `PyVal.str` keys. -/
abbrev SelMap := List (PyVal × PyVal)

/-- `selectors.get(name)` for a string key. -/
def lookupKey (m : SelMap) (name : String) : Option PyVal :=
  (m.find? (fun kv => kv.fst == PyVal.str name)).map (fun kv => kv.snd)

/-- The mapping after `selectors.pop(name, None)`. -/
def eraseKey (m : SelMap) (name : String) : SelMap :=
  m.eraseP (fun kv => kv.fst == PyVal.str name)

/-- Trace of the collaborator call made by the row `_build_wd_selector`:
the argument passed to `xpath_builder.attribute_expression(None, ...)`. -/
inductive RowEvent where
  | attrExprCall (arg : SelMap)
deriving DecidableEq

/-- The row `SelectorBuilder._build_wd_selector`
(locators/row/selector_builder.py lines 10-31).  Note that the guard on
line 11 iterates the `selectors` dict directly — `for selector in
selectors` yields the dict's KEYS — so the `isinstance(..., re._pattern_type)`
test is applied to the keys, not to the constraint values.  `attrExpr` is
the collaborator `xpath_builder.attribute_expression(None, ...)`
(`none` models a falsy empty string result). -/
def rowBuildWdSelector (attrExpr : SelMap → Option String) (scopeTagName : String)
    (selectors : SelMap) :
    Except Exc (Option (String × String)) × List RowEvent :=
  if selectors.any (fun kv => kv.fst.isRegex) then (Except.ok none, [])
  else
    match lookupKey selectors "tag_name" with
    | none => (Except.error (Exc.watirError "internal error: no tag_name?!"), [])
    | some v =>
      if v.truthy = false then
        (Except.error (Exc.watirError "internal error: no tag_name?!"), [])
      else
        let rest := eraseKey selectors "tag_name"
        let expressions :=
          if scopeTagName.toLower = "tbody" ∨ scopeTagName.toLower = "tfoot"
              ∨ scopeTagName.toLower = "thead" then
            ["./tr"]
          else
            ["./tr", "./body/tr", "./thead/tr", "./tfoot/tr"]
        let expressions2 :=
          match attrExpr rest with
          | some a => expressions.map (fun e => e ++ "[" ++ a ++ "]")
          | none => expressions
        let xpath := String.intercalate " | " expressions2
        (Except.ok (some ("xpath", xpath)), [RowEvent.attrExprCall rest])

/-- Modelled from the spec: the `index` handling of the element XPath
builder (`watir_snake/locators/element/selector_builder.py`, absent from
`src/`; spec §4.1 and §8, cross-checked against the index cases of
`tests/browser/selector_builder/text_tests.py`).  `index = 0` is the
identity; `index = k > 0` wraps the whole expression with 1-based
position `k+1`; `index = -1` specializes to `last()`; `index = -k`
(`k > 1`) wraps with `last()-(k-1)`; a non-integer index fails to compile
with a type-mismatch error. -/
def applyIndex (v : PyVal) (expr : String) : Except Exc String :=
  match v with
  | PyVal.int k =>
    if k = 0 then Except.ok expr
    else if 0 < k then Except.ok ("(" ++ expr ++ ")[" ++ toString (k + 1) ++ "]")
    else if k = -1 then Except.ok ("(" ++ expr ++ ")[last()]")
    else Except.ok ("(" ++ expr ++ ")[last()-" ++ toString (-k - 1) ++ "]")
  | _ => Except.error (Exc.typeError "expected an integer index, got a value of another type")

/-! ## Helper lemmas -/

theorem elementCallRetry_trace_cases {α : Type} (ec : Nat → Option Exc)
    (m : Nat → Except Exc α) (evs0 : List Event) :
    (elementCallRetry ec m evs0).snd = evs0 ++ [Event.existCheck 1]
    ∨ (elementCallRetry ec m evs0).snd
        = evs0 ++ [Event.existCheck 1, Event.methodCall 1] := by
  unfold elementCallRetry
  rcases h1 : ec 1 with _ | e1
  · rcases hm1 : m 1 with e | a <;> simp
  · simp

theorem elementCallAttempts_trace_cases {α : Type} (ec : Nat → Option Exc)
    (m : Nat → Except Exc α) :
    (elementCallAttempts ec m).snd = [Event.existCheck 0]
    ∨ (elementCallAttempts ec m).snd = [Event.existCheck 0, Event.methodCall 0]
    ∨ (elementCallAttempts ec m).snd = [Event.existCheck 0, Event.existCheck 1]
    ∨ (elementCallAttempts ec m).snd
        = [Event.existCheck 0, Event.existCheck 1, Event.methodCall 1]
    ∨ (elementCallAttempts ec m).snd
        = [Event.existCheck 0, Event.methodCall 0, Event.existCheck 1]
    ∨ (elementCallAttempts ec m).snd
        = [Event.existCheck 0, Event.methodCall 0, Event.existCheck 1, Event.methodCall 1] := by
  unfold elementCallAttempts
  rcases h0 : ec 0 with _ | e0
  · rcases hm0 : m 0 with e | a
    · cases e
      case staleElementReference =>
        rcases elementCallRetry_trace_cases ec m
            [Event.existCheck 0, Event.methodCall 0] with h | h <;> simp [h]
      all_goals simp
    · simp
  · cases e0
    case staleElementReference =>
      rcases elementCallRetry_trace_cases ec m [Event.existCheck 0] with h | h <;> simp [h]
    all_goals simp

/-! ## Claims -/

/-- C1: every action executed through `Element._element_call` runs the
exist-check and then the action; if the action raises the driver's
staleness exception, the exist-check and the action are each re-run
exactly once more, and an exception on that second attempt — staleness
included — propagates; any non-staleness exception from the first attempt
propagates without a retry; no trace ever contains more than two
exist-checks or two action runs. -/
theorem elementCall_single_staleness_retry (dt : Int) (t0 : Timer)
    (ec : Nat → Option Exc) (m : Nat → Except Exc Nat)
    (hec0 : ec 0 = none) (hm0 : m 0 = Except.error Exc.staleElementReference)
    (hec1 : ec 1 = none) :
    ((elementCall dt t0 ec m).snd.snd
        = [Event.existCheck 0, Event.methodCall 0, Event.existCheck 1, Event.methodCall 1]
      ∧ (elementCall dt t0 ec m).fst = m 1)
    ∧ (∀ (ec2 : Nat → Option Exc) (m2 : Nat → Except Exc Nat),
        (elementCall dt t0 ec2 m2).snd.snd.countP Event.isExistCheck ≤ 2
        ∧ (elementCall dt t0 ec2 m2).snd.snd.countP Event.isMethodCall ≤ 2)
    ∧ (∀ e : Exc, e ≠ Exc.staleElementReference →
        ∀ m3 : Nat → Except Exc Nat, m3 0 = Except.error e →
          (elementCall dt t0 ec m3).fst = Except.error e
          ∧ (elementCall dt t0 ec m3).snd.snd
              = [Event.existCheck 0, Event.methodCall 0]) := by
  refine ⟨?_, ?_, ?_⟩
  · unfold elementCall elementCallAttempts elementCallRetry
    rcases hm1 : m 1 with e | a <;> simp [hec0, hm0, hec1, hm1]
  · intro ec2 m2
    have h := elementCallAttempts_trace_cases ec2 m2
    have hev : (elementCall dt t0 ec2 m2).snd.snd = (elementCallAttempts ec2 m2).snd := by
      unfold elementCall
      simp
    rw [hev]
    rcases h with h | h | h | h | h | h <;>
      simp [h, List.countP_cons, Event.isExistCheck, Event.isMethodCall]
  · intro e he m3 hm3
    unfold elementCall elementCallAttempts
    cases e <;> simp_all

/-- Witness for C1: with a first exist-check that succeeds, a first action
run that raises staleness and a second attempt that succeeds, the call
performs exactly one retry and returns the second action result. -/
theorem elementCall_single_staleness_retry_witness :
    (elementCall 30 { deadline := none, locked := none }
        (fun _ => none)
        (fun n => if n = 0 then Except.error Exc.staleElementReference
                  else Except.ok 7)).snd.snd
      = [Event.existCheck 0, Event.methodCall 0, Event.existCheck 1, Event.methodCall 1]
    ∧ (elementCall 30 { deadline := none, locked := none }
        (fun _ => none)
        (fun n => if n = 0 then Except.error Exc.staleElementReference
                  else Except.ok 7)).fst = Except.ok 7 := by
  have h := (elementCall_single_staleness_retry 30 { deadline := none, locked := none }
      (fun _ => none)
      (fun n => if n = 0 then Except.error Exc.staleElementReference else Except.ok 7)
      rfl (by decide) rfl).1
  exact ⟨h.1, h.2.trans (by decide)⟩

/-- C2: `Element._element_call` installs a fresh `Timer` with the default
timeout only when the shared timer is not locked — an already-locked
timer is reused and never overwritten — and resets the timer on every
exit path (the action and exist-check outcomes are universally
quantified, so normal returns and exceptions alike are covered), again
only when it was not locked. -/
theorem elementCall_timer_discipline (dt : Int) (t0 : Timer)
    (ec : Nat → Option Exc) (m : Nat → Except Exc Nat) :
    (t0.locked ≠ none →
        elementCallTimerInstall dt t0 = t0
        ∧ (elementCall dt t0 ec m).snd.fst = t0)
    ∧ (t0.locked = none →
        elementCallTimerInstall dt t0 = Timer.fresh dt
        ∧ (elementCall dt t0 ec m).snd.fst = Timer.reset (Timer.fresh dt)) := by
  constructor
  · intro h
    unfold elementCall elementCallTimerInstall
    simp [h]
  · intro h
    unfold elementCall elementCallTimerInstall
    simp [h, Timer.fresh, Timer.reset]

/-- Witness for C2: a locked timer survives the call untouched; an
unlocked timer is replaced by a fresh one and reset on exit. -/
theorem elementCall_timer_discipline_witness :
    (elementCallTimerInstall 30 { deadline := some 5, locked := some () }
        = { deadline := some 5, locked := some () }
      ∧ (elementCall 30 { deadline := some 5, locked := some () }
          (fun _ => none) (fun _ => (Except.ok 0 : Except Exc Nat))).snd.fst
        = { deadline := some 5, locked := some () })
    ∧ (elementCallTimerInstall 30 { deadline := none, locked := none } = Timer.fresh 30
      ∧ (elementCall 30 { deadline := none, locked := none }
          (fun _ => none) (fun _ => (Except.ok 0 : Except Exc Nat))).snd.fst
        = Timer.reset (Timer.fresh 30)) :=
  ⟨(elementCall_timer_discipline 30 { deadline := some 5, locked := some () }
      (fun _ => none) (fun _ => (Except.ok 0 : Except Exc Nat))).1 (by decide),
   (elementCall_timer_discipline 30 { deadline := none, locked := none }
      (fun _ => none) (fun _ => (Except.ok 0 : Except Exc Nat))).2 rfl⟩

/-- Shared concrete configuration for witnesses: relaxed locating on,
default timeout 30, element repr "sel". -/
def cfgR : Config := { relaxed := true, defaultTimeout := 30, selRepr := "sel" }

/-- Concrete configuration with relaxed locating off. -/
def cfgN : Config := { relaxed := false, defaultTimeout := 30, selRepr := "sel" }

/-- An unresolved element (no cached handle, selector still present). -/
def sW : ElemState := { element := none, selectorEmpty := false }

/-- Baseline concrete collaborator outcomes for witnesses: context fine,
locate finds nothing, the scope waits return, the polling waits time out. -/
def oracleW : Oracles :=
  { probe := fun _ => none
    ensureContext := none
    locate := Except.ok none
    scopeWaitExists := none
    scopeWaitPresent := none
    waitUntilExists := some Exc.timeoutError
    waitUntilEnabled := some Exc.timeoutError
    waitUntilNotReadonly := some Exc.timeoutError
    enabledCall := Except.ok true
    readonlyAttr := none }

/-- Witness collaborators under which the element becomes present but
never enabled. -/
def oracleE : Oracles := { oracleW with waitUntilExists := none }

/-- Witness collaborators under which the element becomes present and
enabled but never leaves the read-only state. -/
def oracleR : Oracles := { oracleW with waitUntilExists := none, waitUntilEnabled := none }

/-- C3: with relaxed locating enabled, `wait_for_enabled` first runs
`wait_for_present`, and a timeout of the enabled poll raises
`ObjectDisabledException`; `wait_for_writable` first runs
`wait_for_enabled`, and a timeout of the not-read-only poll raises
`ObjectReadOnlyException`; the two timeout failure kinds are distinct
from each other and from the not-found failure. -/
theorem waitFor_enabled_writable_layering (cfg : Config) (o : Oracles) (s : ElemState)
    (hrel : cfg.relaxed = true) :
    (∃ rest, (waitForEnabled cfg o s).snd.snd = (waitForPresent cfg o s).snd.snd ++ rest)
    ∧ ((waitForPresent cfg o s).fst = Except.ok () →
        o.waitUntilEnabled = some Exc.timeoutError →
        (waitForEnabled cfg o s).fst
          = Except.error (Exc.objectDisabled (enabledTimeoutMsg cfg)))
    ∧ (∃ rest, (waitForWritable cfg o s).snd.snd = (waitForEnabled cfg o s).snd.snd ++ rest)
    ∧ ((waitForEnabled cfg o s).fst = Except.ok () →
        o.waitUntilNotReadonly = some Exc.timeoutError →
        (waitForWritable cfg o s).fst
          = Except.error (Exc.objectReadOnly (readonlyTimeoutMsg cfg)))
    ∧ (∀ m1 m2 m3 : String,
        Exc.objectDisabled m1 ≠ Exc.objectReadOnly m2
        ∧ Exc.objectDisabled m1 ≠ Exc.unknownObject m3
        ∧ Exc.objectReadOnly m2 ≠ Exc.unknownObject m3) := by
  refine ⟨?_, ?_, ?_, ?_, ?_⟩
  · unfold waitForEnabled
    rcases hwp : waitForPresent cfg o s with ⟨r, s2, evs⟩
    rcases r with e | u
    · exact ⟨[], by simp [hrel, hwp]⟩
    · refine ⟨[Event.waitUntilEnabled], ?_⟩
      rcases hwe : o.waitUntilEnabled with _ | e
      · simp [hrel, hwp, hwe]
      · cases e <;> simp [hrel, hwp, hwe]
  · intro hok hto
    unfold waitForEnabled
    rcases hwp : waitForPresent cfg o s with ⟨r, s2, evs⟩
    rw [hwp] at hok
    simp only at hok
    subst hok
    simp [hrel, hwp, hto]
  · unfold waitForWritable
    rcases hwe : waitForEnabled cfg o s with ⟨r, s2, evs⟩
    rcases r with e | u
    · exact ⟨[], by simp [hrel, hwe]⟩
    · refine ⟨[Event.waitUntilNotReadonly], ?_⟩
      rcases hwr : o.waitUntilNotReadonly with _ | e
      · simp [hrel, hwe, hwr]
      · cases e <;> simp [hrel, hwe, hwr]
  · intro hok hto
    unfold waitForWritable
    rcases hwe : waitForEnabled cfg o s with ⟨r, s2, evs⟩
    rw [hwe] at hok
    simp only at hok
    subst hok
    simp [hrel, hwe, hto]
  · intro m1 m2 m3
    exact ⟨by simp, by simp, by simp⟩

/-- Witness for C3: concrete runs where the enabled poll (resp. the
not-read-only poll) times out produce the disabled-specific
(resp. read-only-specific) failure. -/
theorem waitFor_enabled_writable_layering_witness :
    (waitForEnabled cfgR oracleE sW).fst
      = Except.error (Exc.objectDisabled (enabledTimeoutMsg cfgR))
    ∧ (waitForWritable cfgR oracleR sW).fst
      = Except.error (Exc.objectReadOnly (readonlyTimeoutMsg cfgR)) :=
  ⟨(waitFor_enabled_writable_layering cfgR oracleE sW rfl).2.1 rfl rfl,
   (waitFor_enabled_writable_layering cfgR oracleR sW rfl).2.2.2.1 rfl rfl⟩

/-- C9 (modelled from the spec, the element XPath builder being outside
`src/`): `index = 0` produces no positional wrapper; `index = k > 0`
wraps with 1-based position `k+1`; `index = -1` wraps with `last()`;
`index = -k` for `k > 1` wraps with `last()-(k-1)`; a non-integer index
fails compilation with a type-mismatch error. -/
theorem applyIndex_semantics (e : String) (k : Int) :
    applyIndex (PyVal.int 0) e = Except.ok e
    ∧ (0 < k → applyIndex (PyVal.int k) e
        = Except.ok ("(" ++ e ++ ")[" ++ toString (k + 1) ++ "]"))
    ∧ applyIndex (PyVal.int (-1)) e = Except.ok ("(" ++ e ++ ")[last()]")
    ∧ (1 < k → applyIndex (PyVal.int (-k)) e
        = Except.ok ("(" ++ e ++ ")[last()-" ++ toString (k - 1) ++ "]"))
    ∧ (∀ v : PyVal, v.isInt = false → ∃ msg, applyIndex v e = Except.error (Exc.typeError msg)) := by
  refine ⟨?_, ?_, ?_, ?_, ?_⟩
  · simp [applyIndex]
  · intro hk
    simp [applyIndex, hk, hk.ne']
  · norm_num [applyIndex]
  · intro hk
    have h0 : ¬(-k = 0) := by omega
    have h1 : ¬(0 < -k) := by omega
    have h2 : ¬(-k = -1) := by omega
    have h3 : -(-k) - 1 = k - 1 := by ring
    simp [applyIndex, h0, h1, h2, h3]
  · intro v hv
    cases v <;> simp_all [applyIndex, PyVal.isInt]

/-- Witness for C9: the wrapper at the test suite's concrete indexes. -/
theorem applyIndex_semantics_witness :
    applyIndex (PyVal.int 0) "E" = Except.ok "E"
    ∧ applyIndex (PyVal.int 4) "E" = Except.ok ("(" ++ "E" ++ ")[" ++ toString ((4 : Int) + 1) ++ "]")
    ∧ applyIndex (PyVal.int (-1)) "E" = Except.ok ("(" ++ "E" ++ ")[last()]")
    ∧ applyIndex (PyVal.int (-3)) "E"
        = Except.ok ("(" ++ "E" ++ ")[last()-" ++ toString ((3 : Int) - 1) ++ "]")
    ∧ ∃ msg, applyIndex (PyVal.str "foo") "E" = Except.error (Exc.typeError msg) := by
  have h4 := applyIndex_semantics "E" 4
  have h3 := applyIndex_semantics "E" 3
  exact ⟨h4.1, h4.2.1 (by norm_num), h4.2.2.1,
    by simpa using h3.2.2.2.1 (by norm_num), h4.2.2.2.2 (PyVal.str "foo") rfl⟩

/-- C10, counterexample to the claim as stated: when the cached handle's
liveness probe raises an exception other than the staleness one, `stale`
returns neither `False` nor `True` — the exception propagates. -/
theorem stale_nonboolean_on_other_exception :
    staleProp (fun _ => some (Exc.other 7)) { element := some 1, selectorEmpty := false }
      ≠ Except.ok false
    ∧ staleProp (fun _ => some (Exc.other 7)) { element := some 1, selectorEmpty := false }
      ≠ Except.ok true := by
  decide

/-- C10 as amended: querying `stale` with no resolved handle raises an
`Error`; with a cached handle, `stale` is `True` exactly when the probe
raises the staleness exception, `False` when the probe returns normally,
and any other exception from the probe propagates. -/
theorem stale_semantics_amended (probe : Nat → Option Exc) (h : Nat) (b : Bool) :
    staleProp probe { element := none, selectorEmpty := b }
      = Except.error (Exc.watirError "Can not check staleness of unused element")
    ∧ (probe h = none →
        staleProp probe { element := some h, selectorEmpty := b } = Except.ok false)
    ∧ (probe h = some Exc.staleElementReference →
        staleProp probe { element := some h, selectorEmpty := b } = Except.ok true)
    ∧ (∀ e : Exc, e ≠ Exc.staleElementReference → probe h = some e →
        staleProp probe { element := some h, selectorEmpty := b } = Except.error e) := by
  refine ⟨rfl, ?_, ?_, ?_⟩
  · intro hp
    simp [staleProp, hp]
  · intro hp
    simp [staleProp, hp]
  · intro e he hp
    cases e <;> simp_all [staleProp]

/-- Witness for C10's amended statement at concrete probes. -/
theorem stale_semantics_amended_witness :
    staleProp (fun _ => none) { element := none, selectorEmpty := false }
      = Except.error (Exc.watirError "Can not check staleness of unused element")
    ∧ staleProp (fun _ => none) { element := some 1, selectorEmpty := false } = Except.ok false
    ∧ staleProp (fun _ => some Exc.staleElementReference)
        { element := some 1, selectorEmpty := false } = Except.ok true
    ∧ staleProp (fun _ => some (Exc.other 7)) { element := some 1, selectorEmpty := false }
      = Except.error (Exc.other 7) :=
  ⟨(stale_semantics_amended (fun _ => none) 1 false).1,
   (stale_semantics_amended (fun _ => none) 1 false).2.1 rfl,
   (stale_semantics_amended (fun _ => some Exc.staleElementReference) 1 false).2.2.1 rfl,
   (stale_semantics_amended (fun _ => some (Exc.other 7)) 1 false).2.2.2
     (Exc.other 7) (by decide) rfl⟩

theorem assertExists_trace_cases (cfg : Config) (o : Oracles) (s : ElemState) :
    (assertExists cfg o s).snd.snd = [Event.ensureContext]
    ∨ (assertExists cfg o s).snd.snd = [Event.ensureContext, Event.staleProbe]
    ∨ (assertExists cfg o s).snd.snd = [Event.staleProbe]
    ∨ (assertExists cfg o s).snd.snd = [Event.ensureContext, Event.locateCall]
    ∨ (assertExists cfg o s).snd.snd = [Event.staleProbe, Event.ensureContext]
    ∨ (assertExists cfg o s).snd.snd
        = [Event.staleProbe, Event.ensureContext, Event.locateCall] := by
  unfold assertExists locateAndAssert
  rcases hel : s.element with _ | h
  · rcases hctx : o.ensureContext with _ | e
    · rcases hloc : o.locate with e | r
      · simp [hel, hctx, hloc]
      · rcases r with _ | hh <;> simp [hel, hctx, hloc, assertElementFound]
    · simp [hel, hctx]
  · cases hsel : s.selectorEmpty
    · rcases hst : staleProp o.probe s with e | b
      · simp [hel, hsel, hst]
      · cases b
        · simp [hel, hsel, hst]
        · rcases hctx : o.ensureContext with _ | e
          · rcases hloc : o.locate with e | r
            · simp [hel, hsel, hst, hctx, hloc]
            · rcases r with _ | hh <;> simp [hel, hsel, hst, hctx, hloc, assertElementFound]
          · simp [hel, hsel, hst, hctx]
    · rcases hctx : o.ensureContext with _ | e
      · rcases hst : staleProp o.probe s with e | b
        · simp [hel, hsel, hctx, hst]
        · cases b <;> simp [hel, hsel, hctx, hst, assertElementFound]
      · simp [hel, hsel, hctx]

theorem assertExists_events_small (cfg : Config) (o : Oracles) (s : ElemState) :
    (assertExists cfg o s).snd.snd.count Event.locateCall ≤ 1
    ∧ Event.waitUntilExists ∉ (assertExists cfg o s).snd.snd
    ∧ Event.scopeWaitExists ∉ (assertExists cfg o s).snd.snd
    ∧ Event.warnAdvisory ∉ (assertExists cfg o s).snd.snd := by
  rcases assertExists_trace_cases cfg o s with h | h | h | h | h | h <;>
    rw [h] <;> exact ⟨by decide, by decide, by decide, by decide⟩

theorem existsProp_trace (cfg : Config) (o : Oracles) (s : ElemState) :
    (existsProp cfg o s).snd.snd = (assertExists cfg o s).snd.snd := by
  unfold existsProp
  rcases ha : assertExists cfg o s with ⟨r, s2, evs⟩
  rcases r with e | u
  · cases e <;> simp [ha]
  · simp [ha]

/-- C4: with relaxed locating disabled, `wait_for_exists` is exactly
`assert_exists` — a single resolution attempt with no polling — and when
that single locate yields no element it raises the unknown-object failure
immediately. -/
theorem waitForExists_strict_single_attempt (cfg : Config) (o : Oracles) (s : ElemState)
    (hrel : cfg.relaxed = false) :
    waitForExists cfg o s = assertExists cfg o s
    ∧ (assertExists cfg o s).snd.snd.count Event.locateCall ≤ 1
    ∧ Event.waitUntilExists ∉ (assertExists cfg o s).snd.snd
    ∧ (s.element = none → o.ensureContext = none → o.locate = Except.ok none →
        (assertExists cfg o s).fst
          = Except.error (Exc.unknownObject ("unable to locate element: " ++ cfg.selRepr))
        ∧ (assertExists cfg o s).snd.snd.count Event.locateCall = 1) := by
  refine ⟨?_, (assertExists_events_small cfg o s).1,
    (assertExists_events_small cfg o s).2.1, ?_⟩
  · unfold waitForExists
    simp [hrel]
  · intro hel hctx hloc
    unfold assertExists locateAndAssert assertElementFound
    simp [hel, hctx, hloc]

/-- Witness for C4: with relaxed locating off and a locate that finds
nothing, the unknown-object failure is raised after a single locate. -/
theorem waitForExists_strict_single_attempt_witness :
    waitForExists cfgN oracleW sW = assertExists cfgN oracleW sW
    ∧ (assertExists cfgN oracleW sW).fst
        = Except.error (Exc.unknownObject ("unable to locate element: " ++ cfgN.selRepr))
    ∧ (assertExists cfgN oracleW sW).snd.snd.count Event.locateCall = 1 :=
  ⟨(waitForExists_strict_single_attempt cfgN oracleW sW rfl).1,
   ((waitForExists_strict_single_attempt cfgN oracleW sW rfl).2.2.2 rfl rfl rfl).1,
   ((waitForExists_strict_single_attempt cfgN oracleW sW rfl).2.2.2 rfl rfl rfl).2⟩

/-- C5: in relaxed mode, when the fast existence path does not apply,
`wait_for_exists` waits on the owning scope's existence before polling its
own existence predicate; on deadline expiry it raises
`UnknownObjectException` naming the configured timeout and the selector,
and it emits the advisory diagnostic exactly when the configured default
timeout is non-zero. -/
theorem waitForExists_relaxed_slow_path (cfg : Config) (o : Oracles) (s : ElemState)
    (hrel : cfg.relaxed = true)
    (hslow : (existsProp cfg o s).fst = Except.ok false) :
    (∃ rest, (waitForExists cfg o s).snd.snd
        = (existsProp cfg o s).snd.snd ++ Event.scopeWaitExists :: rest)
    ∧ Event.waitUntilExists ∉ (existsProp cfg o s).snd.snd
    ∧ (o.scopeWaitExists = none → o.waitUntilExists = some Exc.timeoutError →
        (waitForExists cfg o s).fst = Except.error (Exc.unknownObject (locateTimeoutMsg cfg))
        ∧ (Event.warnAdvisory ∈ (waitForExists cfg o s).snd.snd ↔ cfg.defaultTimeout ≠ 0))
    ∧ (o.scopeWaitExists = some Exc.timeoutError →
        (waitForExists cfg o s).fst = Except.error (Exc.unknownObject (locateTimeoutMsg cfg))
        ∧ (Event.warnAdvisory ∈ (waitForExists cfg o s).snd.snd ↔ cfg.defaultTimeout ≠ 0)) := by
  rcases hx : existsProp cfg o s with ⟨r, s2, evs⟩
  rw [hx] at hslow
  simp only at hslow
  subst hslow
  have hwarn : Event.warnAdvisory ∉ evs := by
    have h := (assertExists_events_small cfg o s).2.2.2
    rw [← existsProp_trace cfg o s, hx] at h
    exact h
  have hwu : Event.waitUntilExists ∉ evs := by
    have h := (assertExists_events_small cfg o s).2.1
    rw [← existsProp_trace cfg o s, hx] at h
    exact h
  refine ⟨?_, hwu, ?_, ?_⟩
  · unfold waitForExists
    rcases hsw : o.scopeWaitExists with _ | e
    · rcases hwx : o.waitUntilExists with _ | e
      · exact ⟨[Event.waitUntilExists], by simp [hrel, hx, hsw, hwx]⟩
      · cases e
        case timeoutError =>
          by_cases hdt : cfg.defaultTimeout = 0
          · exact ⟨[Event.waitUntilExists],
              by simp [hrel, hx, hsw, hwx, locateTimeoutRaise, hdt]⟩
          · exact ⟨[Event.waitUntilExists, Event.warnAdvisory],
              by simp [hrel, hx, hsw, hwx, locateTimeoutRaise, hdt]⟩
        all_goals exact ⟨[Event.waitUntilExists], by simp [hrel, hx, hsw, hwx]⟩
    · cases e
      case timeoutError =>
        by_cases hdt : cfg.defaultTimeout = 0
        · exact ⟨[], by simp [hrel, hx, hsw, locateTimeoutRaise, hdt]⟩
        · exact ⟨[Event.warnAdvisory], by simp [hrel, hx, hsw, locateTimeoutRaise, hdt]⟩
      all_goals exact ⟨[], by simp [hrel, hx, hsw]⟩
  · intro hsw hwx
    unfold waitForExists
    by_cases hdt : cfg.defaultTimeout = 0 <;>
      simp [hrel, hx, hsw, hwx, locateTimeoutRaise, hdt, hwarn]
  · intro hsw
    unfold waitForExists
    by_cases hdt : cfg.defaultTimeout = 0 <;>
      simp [hrel, hx, hsw, locateTimeoutRaise, hdt, hwarn]

/-- Witness for C5: a never-appearing element under a 30-second default
timeout raises the unknown-object failure and emits the advisory. -/
theorem waitForExists_relaxed_slow_path_witness :
    (waitForExists cfgR oracleW sW).fst
      = Except.error (Exc.unknownObject (locateTimeoutMsg cfgR))
    ∧ Event.warnAdvisory ∈ (waitForExists cfgR oracleW sW).snd.snd :=
  ⟨((waitForExists_relaxed_slow_path cfgR oracleW sW rfl rfl).2.2.1 rfl rfl).1,
   ((waitForExists_relaxed_slow_path cfgR oracleW sW rfl rfl).2.2.1 rfl rfl).2.mpr
     (by decide)⟩

/-- C6: an element that still holds its selector and a cached non-stale
handle passes `assert_exists` — and the relaxed `wait_for_exists` fast
path — without any locate query being executed. -/
theorem assertExists_cached_no_locate (cfg : Config) (o : Oracles) (h : Nat)
    (hprobe : o.probe h = none) :
    (assertExists cfg o { element := some h, selectorEmpty := false }).fst = Except.ok ()
    ∧ Event.locateCall
        ∉ (assertExists cfg o { element := some h, selectorEmpty := false }).snd.snd
    ∧ (cfg.relaxed = true →
        (waitForExists cfg o { element := some h, selectorEmpty := false }).fst = Except.ok ()
        ∧ Event.locateCall
            ∉ (waitForExists cfg o { element := some h, selectorEmpty := false }).snd.snd) := by
  have hassert : assertExists cfg o { element := some h, selectorEmpty := false }
      = (Except.ok (), { element := some h, selectorEmpty := false }, [Event.staleProbe]) := by
    unfold assertExists
    simp [staleProp, hprobe]
  refine ⟨by rw [hassert], by rw [hassert]; simp, ?_⟩
  intro hrel
  have : waitForExists cfg o { element := some h, selectorEmpty := false }
      = (Except.ok (), { element := some h, selectorEmpty := false }, [Event.staleProbe]) := by
    unfold waitForExists existsProp
    simp [hrel, hassert]
  rw [this]
  exact ⟨rfl, by simp⟩

/-- Witness for C6: a cached live handle with a pending selector passes
both checks without a locate. -/
theorem assertExists_cached_no_locate_witness :
    (assertExists cfgR oracleW { element := some 1, selectorEmpty := false }).fst = Except.ok ()
    ∧ Event.locateCall
        ∉ (assertExists cfgR oracleW { element := some 1, selectorEmpty := false }).snd.snd
    ∧ (waitForExists cfgR oracleW { element := some 1, selectorEmpty := false }).fst
        = Except.ok () :=
  ⟨(assertExists_cached_no_locate cfgR oracleW 1 rfl).1,
   (assertExists_cached_no_locate cfgR oracleW 1 rfl).2.1,
   ((assertExists_cached_no_locate cfgR oracleW 1 rfl).2.2 rfl).1⟩

/-- C7 fails on the code: a selector whose `text` constraint is a compiled
regular expression is NOT answered with `None` by the row
`_build_wd_selector` — the guard iterates the dict's keys, which are
strings, so it never fires on a regex value; the builder goes on to emit
an xpath query (feeding the regex-valued residue to the attribute
compiler) for every possible attribute-expression outcome. -/
theorem rowBuild_regex_value_reaches_backend (attrExpr : SelMap → Option String) :
    ∃ q : String × String,
      (rowBuildWdSelector attrExpr "table"
          [(PyVal.str "tag_name", PyVal.str "tr"),
           (PyVal.str "text", PyVal.regex "Developer")]).fst
        = Except.ok (some q) := by
  have herase : eraseKey
      [(PyVal.str "tag_name", PyVal.str "tr"), (PyVal.str "text", PyVal.regex "Developer")]
      "tag_name" = [(PyVal.str "text", PyVal.regex "Developer")] := by decide
  unfold rowBuildWdSelector
  simp only [herase]
  rcases hA : attrExpr [(PyVal.str "text", PyVal.regex "Developer")] with _ | a <;>
    · simp only [hA]
      exact ⟨_, rfl⟩

/-- C8: a selector mapping (with well-formed string keys) lacking a truthy
`tag_name` entry makes the row `_build_wd_selector` raise the
internal-consistency `Error`; when a truthy `tag_name` is present it is
removed from the selector before the remaining constraints are handed to
the attribute compiler. -/
theorem rowBuild_tag_name_guard (attrExpr : SelMap → Option String) (tag : String)
    (sels : SelMap) (hkeys : ∀ kv ∈ sels, kv.fst.isRegex = false) :
    ((∀ v, lookupKey sels "tag_name" = some v → v.truthy = false) →
        (rowBuildWdSelector attrExpr tag sels).fst
          = Except.error (Exc.watirError "internal error: no tag_name?!"))
    ∧ (∀ v, lookupKey sels "tag_name" = some v → v.truthy = true →
        (rowBuildWdSelector attrExpr tag sels).snd
          = [RowEvent.attrExprCall (eraseKey sels "tag_name")]) := by
  have hguard : sels.any (fun kv => kv.fst.isRegex) = false := by
    cases hany : sels.any (fun kv => kv.fst.isRegex) with
    | false => rfl
    | true =>
      rw [List.any_eq_true] at hany
      obtain ⟨kv, hkv, hr⟩ := hany
      rw [hkeys kv hkv] at hr
      cases hr
  unfold rowBuildWdSelector
  rcases hlk : lookupKey sels "tag_name" with _ | v
  · constructor
    · intro _
      simp [hguard, hlk]
    · intro v hv
      cases hv
  · constructor
    · intro htr
      have hfalse := htr v rfl
      simp [hguard, hlk, hfalse]
    · intro w hw htrue
      injection hw with hw
      subst hw
      simp [hguard, hlk, htrue]

/-- Witness for C8: a mapping without `tag_name` raises the internal
error; with `tag_name` present, the attribute compiler receives the
mapping with `tag_name` removed. -/
theorem rowBuild_tag_name_guard_witness :
    (rowBuildWdSelector (fun _ => none) "table" [(PyVal.str "id", PyVal.str "x")]).fst
      = Except.error (Exc.watirError "internal error: no tag_name?!")
    ∧ (rowBuildWdSelector (fun _ => none) "table"
        [(PyVal.str "tag_name", PyVal.str "tr"), (PyVal.str "text", PyVal.str "a")]).snd
      = [RowEvent.attrExprCall [(PyVal.str "text", PyVal.str "a")]] := by
  have h0 : lookupKey [(PyVal.str "id", PyVal.str "x")] "tag_name" = none := by decide
  constructor
  · refine (rowBuild_tag_name_guard (fun _ => none) "table"
      [(PyVal.str "id", PyVal.str "x")] (by decide)).1 ?_
    intro v hv
    rw [h0] at hv
    cases hv
  · exact ((rowBuild_tag_name_guard (fun _ => none) "table"
      [(PyVal.str "tag_name", PyVal.str "tr"), (PyVal.str "text", PyVal.str "a")]
      (by decide)).2 (PyVal.str "tr") (by decide) (by decide)).trans (by decide)

end WatirSnake
